import Mathlib

/-!
Verification of performanceagent.py: a shallow embedding of the rule-based
process classifier, the per-role aggregation loop, and the three publishing
sinks (prometheus gauge registry, graphite UDP push, CSV append log),
together with theorems settling the specified properties.

Conventions of the embedding:
* Python floats (CPU percent, memory MB) are modelled as rationals.
* Python exceptions are modelled explicitly: a psutil read that raises is an
  Option `none`; an unresolved module-level name is a `PyError.nameError`;
  a sink that raises during publish is recorded by the fan-out model.
* Python dicts are association lists in insertion order.
-/

namespace PerformanceAgent

/-! ### Strings: Python substring containment and joining -/

/-- Does the first character list occur at the head of the second? -/
def headMatch : List Char → List Char → Bool
  | [], _ => true
  | _ :: _, [] => false
  | a :: as, b :: bs => a == b && headMatch as bs

/-- Substring occurrence of `needle` anywhere in the second list. -/
def hasSub (needle : List Char) : List Char → Bool
  | [] => headMatch needle []
  | c :: t => headMatch needle (c :: t) || hasSub needle t

/-- Python `needle in hay` on strings: case-sensitive substring containment. -/
def strIn (needle hay : String) : Bool := hasSub needle.data hay.data

/-- Python `" ".join(tokens)` (performanceagent.py line 67). -/
def joinSp (tokens : List String) : String := String.intercalate " " tokens

/-! ### The rule table and the classifier -/

/-- One role entry of APP_CONFIG: an optional name-substring predicate and an
optional command-line-substring predicate. -/
structure RoleConfig where
  name : Option String
  cmdline : Option String
  deriving DecidableEq

/-- APP_CONFIG (performanceagent.py lines 40-48); applications and, inside
each application, roles appear in their declaration order, which Python dicts
preserve. -/
def APP_CONFIG : List (String × List (String × RoleConfig)) :=
  [("nodejs_service",
      [("master", { name := none, cmdline := some "index.js" }),
       ("worker", { name := none, cmdline := some "--worker" })]),
   ("java_service",
      [("main", { name := some "java", cmdline := none })])]

/-- The rule predicate of lines 73-74: the name-substring test (when the rule
has one) is evaluated first, then the command-line-substring test (when the
rule has one). -/
def roleMatches (rc : RoleConfig) (name cmdline : String) : Bool :=
  (match rc.name with
    | some s => strIn s name
    | none => false)
  || (match rc.cmdline with
    | some s => strIn s cmdline
    | none => false)

/-- The inner loop over the roles of one application (lines 72-76): the first
matching role yields the role key and breaks. -/
def classifyRoles (app : String) :
    List (String × RoleConfig) → String → String → Option String
  | [], _, _ => none
  | (rn, rc) :: rest, name, cmdline =>
    if roleMatches rc name cmdline then some (app ++ "_" ++ rn)
    else classifyRoles app rest name cmdline

/-- The outer loop over applications (lines 71-78): a role found in an earlier
application breaks out of the application loop as well. -/
def classify :
    List (String × List (String × RoleConfig)) → String → String → Option String
  | [], _, _ => none
  | (app, roles) :: rest, name, cmdline =>
    match classifyRoles app roles name cmdline with
    | some r => some r
    | none => classify rest name cmdline

/-- The rule table flattened to (role key, rule) pairs in evaluation order. -/
def flatRules :
    List (String × List (String × RoleConfig)) → List (String × RoleConfig)
  | [] => []
  | (app, roles) :: rest =>
    roles.map (fun r => (app ++ "_" ++ r.1, r.2)) ++ flatRules rest

/-! ### Process samples and the collection loop -/

/-- The per-process metric values read on lines 84-99. -/
structure SampleReads where
  cpu : ℚ
  memMB : ℚ
  threads : ℕ
  readBytes : ℕ
  writeBytes : ℕ
  sentBytes : ℕ
  recvBytes : ℕ
  openFiles : List String
  deriving DecidableEq

/-- One process as the collection loop sees it: the pre-fetched name and
command-line tokens, and each metric read modelled as `none` when the
corresponding psutil call raises NoSuchProcess, AccessDenied or
ZombieProcess. -/
structure ProcSample where
  name : String
  cmdline : List String
  cpu : Option ℚ
  memMB : Option ℚ
  threads : Option ℕ
  io : Option (ℕ × ℕ)
  net : Option (ℕ × ℕ)
  openFiles : Option (List String)
  deriving DecidableEq

/-- The reads of lines 84-99 in source order. All reads happen before the
first aggregation write (line 102), so if any single read raises the sample
contributes nothing: the except-continue on lines 111-112. -/
def readAll (p : ProcSample) : Option SampleReads := do
  let c ← p.cpu
  let m ← p.memMB
  let t ← p.threads
  let io ← p.io
  let net ← p.net
  let ofs ← p.openFiles
  pure { cpu := c, memMB := m, threads := t, readBytes := io.1,
         writeBytes := io.2, sentBytes := net.1, recvBytes := net.2,
         openFiles := ofs }

/-- The per-role running aggregate: the defaultdict value of lines 52-61. -/
structure RoleMetrics where
  cpu_usage : List ℚ
  memory_usage : ℚ
  num_threads : ℕ
  disk_read_bytes : ℕ
  disk_write_bytes : ℕ
  network_sent_bytes : ℕ
  network_recv_bytes : ℕ
  open_files : List String
  deriving DecidableEq

/-- The defaultdict default factory value (lines 52-61). -/
def emptyRoleMetrics : RoleMetrics :=
  { cpu_usage := [], memory_usage := 0, num_threads := 0,
    disk_read_bytes := 0, disk_write_bytes := 0, network_sent_bytes := 0,
    network_recv_bytes := 0, open_files := [] }

/-- The aggregation writes of lines 102-109 for one successfully read
sample. -/
def addSample (r : SampleReads) (v : RoleMetrics) : RoleMetrics :=
  { cpu_usage := v.cpu_usage ++ [r.cpu],
    memory_usage := v.memory_usage + r.memMB,
    num_threads := v.num_threads + r.threads,
    disk_read_bytes := v.disk_read_bytes + r.readBytes,
    disk_write_bytes := v.disk_write_bytes + r.writeBytes,
    network_sent_bytes := v.network_sent_bytes + r.sentBytes,
    network_recv_bytes := v.network_recv_bytes + r.recvBytes,
    open_files := v.open_files ++ r.openFiles }

/-- `metrics_by_role[role]` on a defaultdict: update the entry in place when
the key is present, otherwise append a fresh default entry at the end
(Python dicts keep first-insertion order). -/
def updateRole (m : List (String × RoleMetrics)) (key : String)
    (f : RoleMetrics → RoleMetrics) : List (String × RoleMetrics) :=
  match m with
  | [] => [(key, f emptyRoleMetrics)]
  | (k, v) :: rest =>
    if k = key then (k, f v) :: rest else (k, v) :: updateRole rest key f

/-- Classification of one sample against the fixed rule table
(lines 67 and 70-78). -/
def classifySample (p : ProcSample) : Option String :=
  classify APP_CONFIG p.name (joinSp p.cmdline)

/-- The body of the per-process loop (lines 63-112): classify, skip on no
role, read the metrics, skip the sample when any read raises, otherwise fold
it into its role's aggregate. -/
def foldSample (m : List (String × RoleMetrics)) (p : ProcSample) :
    List (String × RoleMetrics) :=
  match classifySample p with
  | none => m
  | some role =>
    match readAll p with
    | none => m
    | some r => updateRole m role (addSample r)

/-- The process loop of collect_application_metrics (lines 63-114), assuming
the name defaultdict resolved. -/
def collectBody (ps : List ProcSample) : List (String × RoleMetrics) :=
  ps.foldl foldSample []

/-! ### Python name resolution for collect_application_metrics -/

/-- A raised Python exception, as far as the model needs one. -/
inductive PyError where
  | nameError (n : String)
  deriving DecidableEq

/-- The names bound at module top level by performanceagent.py: the imports
of lines 1-8, the module-level assignments of lines 11-48 (including the
conditionally assigned backend globals), the function definitions, and the
Python built-ins the module refers to. `defaultdict` is bound by none of
them: no `from collections import defaultdict` line exists, and defaultdict
is not a Python built-in. -/
def moduleEnv : List String :=
  ["psutil", "time", "datetime", "csv", "configparser", "start_http_server",
   "Gauge", "gethostname", "GraphiteUDPClient", "config", "BACKENDS",
   "PROMETHEUS_PORT", "PROCESS_CPU_USAGE", "PROCESS_MEMORY_USAGE",
   "PROCESS_THREADS", "PROCESS_DISK_READ_BYTES", "PROCESS_DISK_WRITE_BYTES",
   "PROCESS_NETWORK_SENT_BYTES", "PROCESS_NETWORK_RECV_BYTES",
   "GRAPHITE_HOST", "GRAPHITE_PORT", "graphite_client", "LOG_FILE",
   "APP_CONFIG", "collect_application_metrics", "publish_to_prometheus",
   "publish_to_graphite", "publish_to_file", "main",
   "int", "print", "sum", "len", "open"]

/-- collect_application_metrics (lines 50-114). Its first statement
(line 52) evaluates the name `defaultdict` in the enclosing environment;
an unresolved name raises NameError there, before the process loop runs. -/
def collect_application_metrics (env : List String) (ps : List ProcSample) :
    Except PyError (List (String × RoleMetrics)) :=
  if "defaultdict" ∈ env then Except.ok (collectBody ps)
  else Except.error (PyError.nameError "defaultdict")

/-- Does one collection cycle complete without an unhandled exception in the
collection step? -/
def cycleCompletes (env : List String) (ps : List ProcSample) : Bool :=
  match collect_application_metrics env ps with
  | Except.ok _ => true
  | Except.error _ => false

/-! ### The per-role reductions of the sinks -/

/-- Per-role mean CPU: `sum(...) / len(...) if cpu_usage else 0`
(lines 119, 139 and 159). -/
def avgCpu (l : List ℚ) : ℚ :=
  if l = [] then 0 else l.sum / (l.length : ℚ)

/-- The seven per-role aggregate values a sink reports. -/
structure AggVals where
  avg_cpu_usage : ℚ
  total_memory_usage : ℚ
  total_num_threads : ℕ
  total_disk_read_bytes : ℕ
  total_disk_write_bytes : ℕ
  total_network_sent_bytes : ℕ
  total_network_recv_bytes : ℕ
  deriving DecidableEq

/-- The reduction publish_to_prometheus performs per role (lines 119-125),
whose results are set on the seven gauges (lines 127-133). -/
def prometheusAgg (m : RoleMetrics) : AggVals :=
  { avg_cpu_usage := avgCpu m.cpu_usage,
    total_memory_usage := m.memory_usage,
    total_num_threads := m.num_threads,
    total_disk_read_bytes := m.disk_read_bytes,
    total_disk_write_bytes := m.disk_write_bytes,
    total_network_sent_bytes := m.network_sent_bytes,
    total_network_recv_bytes := m.network_recv_bytes }

/-- The reduction publish_to_file performs per role (lines 159-165). -/
def fileAgg (m : RoleMetrics) : AggVals :=
  { avg_cpu_usage := avgCpu m.cpu_usage,
    total_memory_usage := m.memory_usage,
    total_num_threads := m.num_threads,
    total_disk_read_bytes := m.disk_read_bytes,
    total_disk_write_bytes := m.disk_write_bytes,
    total_network_sent_bytes := m.network_sent_bytes,
    total_network_recv_bytes := m.network_recv_bytes }

/-- publish_to_prometheus viewed as the list of per-role gauge writes. -/
def publishToPrometheusVals (mp : List (String × RoleMetrics)) :
    List (String × AggVals) :=
  mp.map (fun q => (q.1, prometheusAgg q.2))

/-- The numeric content of the append-log sink's rows, in the same view. -/
def publishToFileVals (mp : List (String × RoleMetrics)) :
    List (String × AggVals) :=
  mp.map (fun q => (q.1, fileAgg q.2))

/-! ### The append-log sink -/

/-- The DictWriter fieldnames (lines 183-187); writeheader emits exactly this
row. -/
def csvFieldnames : List String :=
  ["timestamp", "role", "avg_cpu_usage", "total_memory_usage",
   "total_num_threads", "total_disk_read_bytes", "total_disk_write_bytes",
   "total_network_sent_bytes", "total_network_recv_bytes", "open_files"]

/-- The per-role row dict built on lines 168-179; csv stringifies each
value. -/
def rowDict (now role : String) (m : RoleMetrics) : List (String × String) :=
  [("timestamp", now), ("role", role),
   ("avg_cpu_usage", toString (avgCpu m.cpu_usage)),
   ("total_memory_usage", toString m.memory_usage),
   ("total_num_threads", toString m.num_threads),
   ("total_disk_read_bytes", toString m.disk_read_bytes),
   ("total_disk_write_bytes", toString m.disk_write_bytes),
   ("total_network_sent_bytes", toString m.network_sent_bytes),
   ("total_network_recv_bytes", toString m.network_recv_bytes),
   ("open_files", String.intercalate ", " m.open_files)]

/-- Lookup in a row dict by field name. -/
def dlookup : List (String × String) → String → Option String
  | [], _ => none
  | (k, v) :: t, f => if k = f then some v else dlookup t f

/-- csv.DictWriter emits each row's values in fieldnames order. -/
def dictWriterRow (fields : List String) (d : List (String × String)) :
    List String :=
  fields.map (fun f => (dlookup d f).getD "")

/-- One data row of the append-log sink. -/
def fileRow (now role : String) (m : RoleMetrics) : List String :=
  dictWriterRow csvFieldnames (rowDict now role m)

/-- publish_to_file (lines 155-190) as a file-contents transformer. `none`
models a file that does not yet exist; opening with mode a creates it, so the
effective prior contents are `getD []`. The header is written exactly when
the append position is 0 after opening, i.e. when the opened file is empty:
the `tell() == 0` test on line 188. -/
def publish_to_file (fileState : Option (List (List String))) (now : String)
    (mp : List (String × RoleMetrics)) : List (List String) :=
  let rows := mp.map (fun q => fileRow now q.1 q.2)
  let contents := fileState.getD []
  if contents = [] then csvFieldnames :: rows else contents ++ rows

/-- Definition following the spec's words for claim C4: the header is written
exactly when the target file does not yet exist — the decision reads the
file's existence, never its content. -/
def publishToFileByExistence (fileState : Option (List (List String)))
    (now : String) (mp : List (String × RoleMetrics)) : List (List String) :=
  let rows := mp.map (fun q => fileRow now q.1 q.2)
  match fileState with
  | none => csvFieldnames :: rows
  | some contents => contents ++ rows

/-! ### The publish fan-out of main -/

/-- The three sinks, in the order the main loop tests them (lines 203-208). -/
inductive Sink where
  | prometheus
  | graphite
  | file
  deriving DecidableEq

/-- Which sinks raise during publish in this cycle (for example an
unreachable push endpoint or an unwritable log file). -/
structure SinkBehavior where
  prometheusFails : Bool
  graphiteFails : Bool
  fileFails : Bool
  deriving DecidableEq

/-- One `if backend in BACKENDS: publish_...` step of the main loop. There is
no try/except around the sink calls, so a step is skipped when a previous
sink's exception is propagating; otherwise the sink is invoked when enabled,
which records the invocation and, on failure, starts the propagation. -/
def callSink (st : List Sink × Option Sink) (enabled fails : Bool)
    (s : Sink) : List Sink × Option Sink :=
  match st with
  | (evs, some e) => (evs, some e)
  | (evs, none) =>
    if enabled then (evs ++ [s], if fails then some s else none)
    else (evs, none)

/-- The publish fan-out of one cycle of main (lines 203-208): prometheus,
then graphite, then file, sequentially on one thread. Returns the sinks
actually invoked with the cycle's snapshot and the propagating exception,
if any. -/
def fanout (backends : List String) (b : SinkBehavior) :
    List Sink × Option Sink :=
  callSink (callSink (callSink ([], none)
      (decide ("prometheus" ∈ backends)) b.prometheusFails Sink.prometheus)
      (decide ("graphite" ∈ backends)) b.graphiteFails Sink.graphite)
      (decide ("file" ∈ backends)) b.fileFails Sink.file

/-! ### Concrete samples used by the witnesses -/

/-- The successful reads of the sample below. -/
def rJava : SampleReads :=
  { cpu := 10, memMB := 1, threads := 2, readBytes := 3, writeBytes := 4,
    sentBytes := 5, recvBytes := 6, openFiles := ["/tmp/a"] }

/-- A process matching the java_service main rule, every read succeeding. -/
def pJava : ProcSample :=
  { name := "java", cmdline := [], cpu := some 10, memMB := some 1,
    threads := some 2, io := some (3, 4), net := some (5, 6),
    openFiles := some ["/tmp/a"] }

/-- A process matching no rule. -/
def pUnmatched : ProcSample :=
  { name := "bash", cmdline := ["ls"], cpu := some 1, memMB := some 1,
    threads := some 1, io := some (0, 0), net := some (0, 0),
    openFiles := some [] }

/-- A process matching the java rule whose cpu_percent read raises. -/
def pFailed : ProcSample :=
  { name := "java", cmdline := [], cpu := none, memMB := some 1,
    threads := some 1, io := some (0, 0), net := some (0, 0),
    openFiles := some [] }

/-- The aggregate pJava alone produces. -/
def vJava : RoleMetrics := addSample rJava emptyRoleMetrics

/-! ### Helper lemmas -/

theorem find_append_some {α : Type} (p : α → Bool) {l1 : List α}
    (l2 : List α) {x : α} (h : l1.find? p = some x) :
    (l1 ++ l2).find? p = some x := by
  induction l1 with
  | nil => simp [List.find?] at h
  | cons a t ih =>
    rw [List.cons_append]
    cases hp : p a with
    | true =>
      rw [List.find?_cons_of_pos _ hp] at h
      rw [List.find?_cons_of_pos _ hp]
      exact h
    | false =>
      have hn : ¬ p a = true := by simp [hp]
      rw [List.find?_cons_of_neg _ hn] at h
      rw [List.find?_cons_of_neg _ hn]
      exact ih h

theorem find_append_none {α : Type} (p : α → Bool) {l1 : List α}
    (l2 : List α) (h : l1.find? p = none) :
    (l1 ++ l2).find? p = l2.find? p := by
  induction l1 with
  | nil => rfl
  | cons a t ih =>
    rw [List.cons_append]
    cases hp : p a with
    | true =>
      rw [List.find?_cons_of_pos _ hp] at h
      simp at h
    | false =>
      have hn : ¬ p a = true := by simp [hp]
      rw [List.find?_cons_of_neg _ hn] at h
      rw [List.find?_cons_of_neg _ hn]
      exact ih h

theorem classifyRoles_eq_find (app : String)
    (roles : List (String × RoleConfig)) (name cmdline : String) :
    classifyRoles app roles name cmdline =
      ((roles.map (fun r => (app ++ "_" ++ r.1, r.2))).find?
        (fun q => roleMatches q.2 name cmdline)).map Prod.fst := by
  induction roles with
  | nil => rfl
  | cons r rest ih =>
    obtain ⟨rn, rc⟩ := r
    cases hm : roleMatches rc name cmdline with
    | true => simp [classifyRoles, hm, List.find?]
    | false => simp [classifyRoles, hm, List.find?, ih]

theorem classify_eq_find (cfg : List (String × List (String × RoleConfig)))
    (name cmdline : String) :
    classify cfg name cmdline =
      ((flatRules cfg).find?
        (fun q => roleMatches q.2 name cmdline)).map Prod.fst := by
  induction cfg with
  | nil => rfl
  | cons a rest ih =>
    obtain ⟨app, roles⟩ := a
    show (match classifyRoles app roles name cmdline with
      | some r => some r
      | none => classify rest name cmdline) = _
    rw [classifyRoles_eq_find]
    cases hf : (roles.map (fun r => (app ++ "_" ++ r.1, r.2))).find?
        (fun q => roleMatches q.2 name cmdline) with
    | some x =>
      simp [flatRules, find_append_some _ _ hf]
    | none =>
      simp [flatRules, find_append_none _ _ hf, ih]

theorem updateRole_mem {m : List (String × RoleMetrics)} {key : String}
    {f : RoleMetrics → RoleMetrics} {kv : String × RoleMetrics}
    (h : kv ∈ updateRole m key f) :
    kv ∈ m ∨ ∃ v0 : RoleMetrics, kv = (key, f v0) := by
  induction m with
  | nil =>
    simp [updateRole] at h
    exact Or.inr ⟨emptyRoleMetrics, h⟩
  | cons a rest ih =>
    obtain ⟨k, v⟩ := a
    by_cases hk : k = key
    · subst hk
      simp [updateRole] at h
      rcases h with h | h
      · exact Or.inr ⟨v, h⟩
      · exact Or.inl (List.mem_cons_of_mem _ h)
    · simp only [updateRole, if_neg hk, List.mem_cons] at h
      rcases h with h | h
      · exact Or.inl (by simp [h])
      · rcases ih h with h1 | h1
        · exact Or.inl (List.mem_cons_of_mem _ h1)
        · exact Or.inr h1

theorem foldSample_mem {acc : List (String × RoleMetrics)} {p : ProcSample}
    {kv : String × RoleMetrics} (h : kv ∈ foldSample acc p) :
    kv ∈ acc ∨
      (classifySample p = some kv.1 ∧ (readAll p).isSome = true ∧
        kv.2.cpu_usage ≠ []) := by
  unfold foldSample at h
  cases hc : classifySample p with
  | none => rw [hc] at h; exact Or.inl h
  | some role =>
    rw [hc] at h
    cases hr : readAll p with
    | none => rw [hr] at h; exact Or.inl h
    | some r =>
      rw [hr] at h
      rcases updateRole_mem h with h1 | ⟨v0, h1⟩
      · exact Or.inl h1
      · right
        subst h1
        refine ⟨rfl, rfl, ?_⟩
        simp [addSample]

theorem collect_mem_source (ps : List ProcSample) :
    ∀ (acc : List (String × RoleMetrics)) (kv : String × RoleMetrics),
      kv ∈ ps.foldl foldSample acc →
      (∃ v0 : RoleMetrics, (kv.1, v0) ∈ acc) ∨
        ∃ p ∈ ps, classifySample p = some kv.1 ∧ (readAll p).isSome = true := by
  induction ps with
  | nil =>
    intro acc kv h
    exact Or.inl ⟨kv.2, by simpa using h⟩
  | cons p rest ih =>
    intro acc kv h
    simp only [List.foldl_cons] at h
    rcases ih (foldSample acc p) kv h with ⟨v0, h1⟩ | ⟨q, hq, h2⟩
    · rcases foldSample_mem h1 with h2 | ⟨h2, h3, _⟩
      · exact Or.inl ⟨v0, h2⟩
      · exact Or.inr ⟨p, List.mem_cons_self _ _, h2, h3⟩
    · exact Or.inr ⟨q, List.mem_cons_of_mem _ hq, h2⟩

theorem foldSample_cpu_ne_nil {acc : List (String × RoleMetrics)}
    {p : ProcSample} (hacc : ∀ kv ∈ acc, kv.2.cpu_usage ≠ []) :
    ∀ kv ∈ foldSample acc p, kv.2.cpu_usage ≠ [] := by
  intro kv h
  rcases foldSample_mem h with h1 | ⟨_, _, h1⟩
  · exact hacc kv h1
  · exact h1

theorem collect_cpu_ne_nil (ps : List ProcSample) :
    ∀ (acc : List (String × RoleMetrics)),
      (∀ kv ∈ acc, kv.2.cpu_usage ≠ []) →
      ∀ kv ∈ ps.foldl foldSample acc, kv.2.cpu_usage ≠ [] := by
  induction ps with
  | nil =>
    intro acc hacc kv h
    exact hacc kv (by simpa using h)
  | cons p rest ih =>
    intro acc hacc kv h
    simp only [List.foldl_cons] at h
    exact ih (foldSample acc p) (foldSample_cpu_ne_nil hacc) kv h

theorem foldSample_of_read_failure {p : ProcSample} (h : readAll p = none)
    (m : List (String × RoleMetrics)) : foldSample m p = m := by
  unfold foldSample
  cases hc : classifySample p <;> simp [h]

/-! ### The claims -/

/-- Claim C1: classification scans applications and, inside each, roles in
declared order, checking the name predicate (when present) before the
command-line predicate (when present); the first rule whose predicate
matches (case-sensitive substring containment) yields the role key
app_name ++ "_" ++ role_name and short-circuits all later rules — stated as:
classify equals the first match over the order-flattened rule table. A
sample matching no rule is assigned no role and contributes nothing to the
role aggregation. -/
theorem classifier_first_match :
    (∀ (name cmdline : String),
      classify APP_CONFIG name cmdline =
        ((flatRules APP_CONFIG).find?
          (fun q => roleMatches q.2 name cmdline)).map Prod.fst) ∧
    (∀ (m : List (String × RoleMetrics)) (p : ProcSample),
      classifySample p = none → foldSample m p = m) := by
  constructor
  · intro name cmdline
    exact classify_eq_find APP_CONFIG name cmdline
  · intro m p h
    simp [foldSample, h]

/-- Witness for C1: a concrete sample matching no rule is excluded from
aggregation. -/
theorem classifier_first_match_witness :
    classifySample pUnmatched = none ∧ foldSample [] pUnmatched = [] :=
  ⟨by decide, classifier_first_match.2 [] pUnmatched (by decide)⟩

/-- Claim C2: the module never binds the name defaultdict (it is neither
imported nor defined nor a built-in), so every call of
collect_application_metrics raises NameError at its first statement, before
any process is examined, and no collection cycle ever completes. -/
theorem collect_raises_nameError :
    moduleEnv.contains "defaultdict" = false ∧
    (∀ ps : List ProcSample,
      collect_application_metrics moduleEnv ps =
        Except.error (PyError.nameError "defaultdict")) ∧
    (∀ ps : List ProcSample, cycleCompletes moduleEnv ps = false) := by
  have h : "defaultdict" ∉ moduleEnv := by decide
  refine ⟨by decide, fun ps => ?_, fun ps => ?_⟩
  · simp [collect_application_metrics, h]
  · simp [cycleCompletes, collect_application_metrics, h]

/-- Counterexample to claim C3 at a concrete input: with all three backends
enabled and only the graphite push failing, the file sink is never invoked
in that cycle — a push-endpoint failure does prevent the append-log sink
from writing its rows. -/
theorem fanout_graphite_failure_blocks_file :
    (fanout ["prometheus", "graphite", "file"]
        { prometheusFails := false, graphiteFails := true,
          fileFails := false }).1 = [Sink.prometheus, Sink.graphite] ∧
    Sink.file ∉ (fanout ["prometheus", "graphite", "file"]
        { prometheusFails := false, graphiteFails := true,
          fileFails := false }).1 ∧
    (fanout ["prometheus", "graphite", "file"]
        { prometheusFails := false, graphiteFails := true,
          fileFails := false }).2 = some Sink.graphite := by
  decide

/-- Claim C3 as amended: main invokes the sinks sequentially with no
exception handling, so a publish failure raised by the graphite sink
propagates, prevents every later enabled sink — in particular the append-log
sink — from being invoked in that cycle, while sinks invoked earlier in the
order (prometheus) are unaffected. -/
theorem fanout_failure_blocks_later_sinks (backends : List String)
    (b : SinkBehavior) (hge : "graphite" ∈ backends)
    (hgf : b.graphiteFails = true) (hpf : b.prometheusFails = false) :
    Sink.file ∉ (fanout backends b).1 ∧
    (fanout backends b).2 = some Sink.graphite ∧
    ("prometheus" ∈ backends → Sink.prometheus ∈ (fanout backends b).1) := by
  by_cases hcp : "prometheus" ∈ backends <;>
    simp [fanout, callSink, hge, hgf, hpf, hcp]

/-- Witness for the amended C3 at a concrete input. -/
theorem fanout_failure_blocks_later_sinks_witness :
    Sink.file ∉ (fanout ["graphite", "file"]
      { prometheusFails := false, graphiteFails := true,
        fileFails := false }).1 :=
  (fanout_failure_blocks_later_sinks ["graphite", "file"]
    { prometheusFails := false, graphiteFails := true, fileFails := false }
    (by decide) rfl rfl).1

/-- Counterexample to claim C4 at a concrete input: on a file that exists
but is empty the code writes the header (the tell() == 0 test is about
content, not existence), whereas a sink that decided by existence, as the
claim states, would write none; the two disagree. -/
theorem header_on_existing_empty_file :
    publish_to_file (some []) "t" [] = [csvFieldnames] ∧
    publishToFileByExistence (some []) "t" [] = [] ∧
    publish_to_file (some []) "t" [] ≠
      publishToFileByExistence (some []) "t" [] := by
  decide

/-- Claim C4 as amended: the append-log sink writes the header row exactly
once, namely when the opened file is empty (append position 0), deciding by
the file's content position rather than its existence; for every cycle run
against an existing append-log file holding N prior rows and a valid header
(hence nonempty), the sink appends exactly one new row per role key and
writes no second header. -/
theorem publish_to_file_appends (contents : List (List String))
    (now : String) (mp : List (String × RoleMetrics)) (h : contents ≠ []) :
    publish_to_file (some contents) now mp =
      contents ++ mp.map (fun q => fileRow now q.1 q.2) ∧
    (publish_to_file (some contents) now mp).length =
      contents.length + mp.length ∧
    publish_to_file none now mp =
      csvFieldnames :: mp.map (fun q => fileRow now q.1 q.2) ∧
    publish_to_file (some []) now mp =
      csvFieldnames :: mp.map (fun q => fileRow now q.1 q.2) := by
  refine ⟨?_, ?_, ?_, ?_⟩ <;> simp [publish_to_file, h]

/-- Witness for the amended C4 at a concrete input. -/
theorem publish_to_file_appends_witness :
    publish_to_file (some [["x"]]) "t" [] =
      [["x"]] ++ ([] : List (String × RoleMetrics)).map
        (fun q => fileRow "t" q.1 q.2) ∧
    (publish_to_file (some [["x"]]) "t" []).length =
      ([["x"]] : List (List String)).length +
        ([] : List (String × RoleMetrics)).length ∧
    publish_to_file none "t" [] =
      csvFieldnames :: ([] : List (String × RoleMetrics)).map
        (fun q => fileRow "t" q.1 q.2) ∧
    publish_to_file (some []) "t" [] =
      csvFieldnames :: ([] : List (String × RoleMetrics)).map
        (fun q => fileRow "t" q.1 q.2) :=
  publish_to_file_appends [["x"]] "t" [] (by decide)

/-- Claim C5: every role key present in the per-role mapping a cycle
produces has a nonempty cpu_usage list — hence at least one contributing
sample — and that sample classified to the key with every metric read
succeeding; a role with zero contributing samples never appears. -/
theorem role_in_snapshot_has_sample (ps : List ProcSample)
    (kv : String × RoleMetrics) (h : kv ∈ collectBody ps) :
    kv.2.cpu_usage ≠ [] ∧
      ∃ p ∈ ps, classifySample p = some kv.1 ∧ (readAll p).isSome = true := by
  refine ⟨collect_cpu_ne_nil ps [] (by simp) kv h, ?_⟩
  rcases collect_mem_source ps [] kv h with ⟨v0, h1⟩ | h1
  · simp at h1
  · exact h1

/-- Witness for C5: the java sample produces the java_service_main entry. -/
theorem role_in_snapshot_has_sample_witness :
    vJava.cpu_usage ≠ [] ∧
      ∃ p ∈ [pJava], classifySample p = some "java_service_main" ∧
        (readAll p).isSome = true :=
  role_in_snapshot_has_sample [pJava] ("java_service_main", vJava)
    (List.Mem.head _)

/-- Claim C6: the value every sink publishes as a role's average CPU is
avgCpu of the collected list; for a nonempty list this is the arithmetic
mean sum/length, for the samples [10, 20, 30] it is exactly 20, and for an
empty list it is 0 with no division fault. -/
theorem avg_cpu_is_mean :
    (∀ m : RoleMetrics, (prometheusAgg m).avg_cpu_usage = avgCpu m.cpu_usage) ∧
    (∀ l : List ℚ, l ≠ [] → avgCpu l = l.sum / (l.length : ℚ)) ∧
    avgCpu [10, 20, 30] = 20 ∧ avgCpu [] = 0 := by
  refine ⟨fun m => rfl, fun l h => by simp [avgCpu, h], ?_, by simp [avgCpu]⟩
  rw [avgCpu, if_neg (by decide)]
  norm_num

/-- Witness for C6: the mean formula applied to the concrete list. -/
theorem avg_cpu_is_mean_witness :
    avgCpu [10, 20, 30] =
      ([10, 20, 30] : List ℚ).sum / (([10, 20, 30] : List ℚ).length : ℚ) :=
  avg_cpu_is_mean.2.1 [10, 20, 30] (by decide)

/-- Claim C7: a process for which any metric read raises is skipped
entirely for the cycle: it changes no role aggregate, and the cycle
continues over the remaining processes exactly as if the process were
absent. -/
theorem failed_process_skipped (ps1 ps2 : List ProcSample) (p : ProcSample)
    (h : readAll p = none) :
    collectBody (ps1 ++ p :: ps2) = collectBody (ps1 ++ ps2) ∧
    ∀ m : List (String × RoleMetrics), foldSample m p = m := by
  constructor
  · unfold collectBody
    rw [List.foldl_append, List.foldl_append, List.foldl_cons,
      foldSample_of_read_failure h]
  · exact foldSample_of_read_failure h

/-- Witness for C7: dropping a concrete failing sample between two cycles of
the same process list leaves the produced mapping unchanged. -/
theorem failed_process_skipped_witness :
    collectBody ([pJava] ++ pFailed :: []) = collectBody ([pJava] ++ []) :=
  (failed_process_skipped [pJava] [] pFailed (by decide)).1

/-- Claim C8: the prometheus gauge sink's per-role reduction and the
append-log sink's per-role reduction are extensionally equal, so in one
cycle both sinks, given the same per-role mapping, report identical average
CPU, total memory, total threads and total byte counters for every role. -/
theorem cross_sink_consistency :
    (∀ m : RoleMetrics, prometheusAgg m = fileAgg m) ∧
    (∀ mp : List (String × RoleMetrics),
      publishToPrometheusVals mp = publishToFileVals mp) :=
  ⟨fun _ => rfl, fun _ => rfl⟩

/-- Claim C9: every appended row carries exactly the field order timestamp,
role, avg_cpu_usage, total_memory_usage, total_num_threads,
total_disk_read_bytes, total_disk_write_bytes, total_network_sent_bytes,
total_network_recv_bytes, open_files, and the open_files field is the
single value joining all open-file paths of the role with ", ". -/
theorem csv_row_schema (now role : String) (m : RoleMetrics) :
    csvFieldnames =
      ["timestamp", "role", "avg_cpu_usage", "total_memory_usage",
       "total_num_threads", "total_disk_read_bytes", "total_disk_write_bytes",
       "total_network_sent_bytes", "total_network_recv_bytes",
       "open_files"] ∧
    fileRow now role m =
      [now, role, toString (avgCpu m.cpu_usage), toString m.memory_usage,
       toString m.num_threads, toString m.disk_read_bytes,
       toString m.disk_write_bytes, toString m.network_sent_bytes,
       toString m.network_recv_bytes,
       String.intercalate ", " m.open_files] :=
  ⟨rfl, rfl⟩

/-- Claim C10: a sample whose command line is the empty token sequence
classifies without fault: joining the empty sequence yields the empty
string, the substring predicates are evaluated against it normally (so only
the name-based java rule can still match), and the classifier returns a
plain optional result. -/
theorem empty_cmdline_classifies :
    joinSp [] = "" ∧
    ∀ name : String,
      classify APP_CONFIG name (joinSp []) =
        (if strIn "java" name then some "java_service_main" else none) := by
  refine ⟨rfl, fun name => ?_⟩
  show classify APP_CONFIG name "" = _
  have h1 : strIn "index.js" "" = false := rfl
  have h2 : strIn "--worker" "" = false := rfl
  cases hj : strIn "java" name <;>
    simp [classify, classifyRoles, roleMatches, APP_CONFIG, h1, h2, hj]

end PerformanceAgent
